import Mathlib

/-!
Shallow embedding of the inference-invocation core of the `code2mech/App`
repository (files `Conjuagation_APP.py`, `Conjuagation_APP_V2.py`,
`GUI_Conjuagation.py`).

Scalars supplied by the UI are Python `float64` values; we embed them as
rationals (every finite double is a rational).  The cast
`np.array(..., dtype=np.float32)` is embedded by `cast32`, a correctly
rounded (round-to-nearest, ties-to-even) conversion to IEEE-754 binary32,
with overflow to the infinities and underflow through the subnormal range.
NaN inputs are not representable in the rational embedding and are not
reachable from the concrete inputs the claims mention.

The ONNX runtime (`onnxruntime`) is external: it is embedded as an oracle
`Runtime` turning model bytes into a `SessionSpec`, which carries the
declared input/output signatures and an execution function `runFn`
(embedding `session.run`).  Python exceptions are embedded as `PyExn`
values carrying the message `str(e)` would produce; fallible steps return
`Except PyExn`.  The filesystem (temporary model files) is an explicit
`FS` state threaded through the functions; `tempfile.NamedTemporaryFile`
is embedded by `FS.mkTempFile`, which draws a fresh name from a counter.
-/

/-! ## IEEE-754 binary32 cast -/

/-- Round a rational to the nearest integer, ties to even
(the IEEE-754 default rounding used by numpy float casts). -/
def rne (q : ℚ) : ℤ :=
  let f := ⌊q⌋
  let r := q - (f : ℚ)
  if r < 1/2 then f
  else if 1/2 < r then f + 1
  else if f % 2 = 0 then f else f + 1

/-- Integer power of two as a rational, for negative exponents too. -/
def pow2 (z : ℤ) : ℚ :=
  if 0 ≤ z then (2 : ℚ) ^ z.toNat else ((2 : ℚ) ^ (-z).toNat)⁻¹

/-- An IEEE-754 binary32 value reachable by casting a finite double:
a finite value (embedded by its exact rational value) or an infinity. -/
inductive F32 where
  | finite (val : ℚ)
  | posInf
  | negInf
deriving DecidableEq, Repr

/-- Embedding of the `np.float32` cast applied by
`np.array(values, dtype=np.float32)`: round the rational (the exact value
of the Python float) to the nearest binary32, ties to even, with gradual
underflow below `2 ^ (-126)` and overflow to the infinities at `2 ^ 128`. -/
def cast32 (q : ℚ) : F32 :=
  if q = 0 then .finite 0
  else
    let sgn : ℚ := if q < 0 then -1 else 1
    let a := |q|
    let e : ℤ := max (Int.log 2 a) (-126)
    let m : ℤ := rne (a * pow2 (23 - e))
    let mag : ℚ := (m : ℚ) * pow2 (e - 23)
    if pow2 128 ≤ mag then (if q < 0 then .negInf else .posInf)
    else .finite (sgn * mag)

/-! ## Tensors and model signatures -/

/-- Embedding of the numpy arrays this code constructs:
`np.array(values, dtype=np.float32)` (rank 1) and
`np.array([values], dtype=np.float32)` (rank 2). -/
inductive NPArray where
  | arr1 (data : List F32)
  | arr2 (data : List (List F32))
deriving DecidableEq, Repr

/-- Discriminator: whether an embedded numpy array is one-dimensional. -/
def NPArray.isArr1 : NPArray → Bool
  | .arr1 _ => true
  | .arr2 _ => false

/-- One declared model input/output: its name and declared shape
(`input.name`, `input.shape` on an onnxruntime `NodeArg`).  The code only
ever takes `len(shape)` and prints the shape, so concrete integer
dimensions suffice for the embedding. -/
structure TensorInfo where
  name : String
  shape : List ℕ
deriving DecidableEq, Repr

/-- An output tensor produced by `session.run`: its shape together with
its values in row-major (flattened) order, so that the caller-side
`outputs[i].flatten()` is embedding-level `data`. -/
structure OutTensor where
  shape : List ℕ
  data : List ℚ
deriving DecidableEq, Repr

/-- Embedding of a Python exception: `msg` is what `str(e)` returns. -/
structure PyExn where
  msg : String
deriving DecidableEq, Repr

/-- A loaded onnxruntime session: the declared signatures
(`session.get_inputs()`, `session.get_outputs()`) and the execution entry
point (`session.run(output_names, input_dict)`, where `output_names` may
be `None`).  `runFn` is the external runtime oracle. -/
structure SessionSpec where
  inputs : List TensorInfo
  outputs : List TensorInfo
  runFn : Option (List String) → List (String × NPArray) → Except PyExn (List OutTensor)

/-- The external ONNX runtime: `ort.InferenceSession(path)` reads the
bytes at `path` and either constructs a session or raises. -/
structure Runtime where
  load : List ℕ → Except PyExn SessionSpec

/-! ## Filesystem with temporary files -/

/-- Model bytes. -/
abbrev Bytes := List ℕ

/-- The filesystem state: a path-to-bytes table plus the counter backing
the collision-resistant fresh names `tempfile.NamedTemporaryFile` hands
out. -/
structure FS where
  files : List (String × Bytes)
  tmpCounter : ℕ
deriving DecidableEq, Repr

/-- The fresh temporary path for a given counter value
(suffix `.onnx` as in the sources). -/
def tempName (n : ℕ) : String :=
  "/tmp/tmp" ++ toString n ++ ".onnx"

/-- Write (create or truncate) a file. -/
def FS.write (fs : FS) (path : String) (bytes : Bytes) : FS :=
  FS.mk (fs.files.filter (fun p => p.1 ≠ path) ++ [(path, bytes)]) fs.tmpCounter

/-- Embedding of
`with tempfile.NamedTemporaryFile(suffix=".onnx", delete=False) as f: f.write(b)`:
create a file under a fresh name, return the new state and the name. -/
def FS.mkTempFile (fs : FS) (bytes : Bytes) : FS × String :=
  let path := tempName fs.tmpCounter
  (FS.mk ((FS.write fs path bytes).files) (fs.tmpCounter + 1), path)

/-- Bytes stored at a path, if the file exists. -/
def FS.read (fs : FS) (path : String) : Option Bytes :=
  fs.files.lookup path

/-- Embedding of `os.path.exists`. -/
def FS.exists (fs : FS) (path : String) : Bool :=
  (fs.read path).isSome

/-- Embedding of `os.unlink` / `os.remove`: removes the file, raises
`FileNotFoundError` when the path does not exist. -/
def FS.unlink (fs : FS) (path : String) : Except PyExn FS :=
  if fs.exists path then
    .ok (FS.mk (fs.files.filter (fun p => p.1 ≠ path)) fs.tmpCounter)
  else
    .error (PyExn.mk ("No such file or directory: " ++ path))

/-- Embedding of `ort.InferenceSession(model_path)`: read the file and
hand its bytes to the runtime; a missing file raises. -/
def ortLoad (rt : Runtime) (fs : FS) (path : String) : Except PyExn SessionSpec :=
  match fs.read path with
  | none => .error (PyExn.mk ("Load model " ++ path ++ " failed"))
  | some b => rt.load b

/-! ## The APP/GUI variant of `run_inference`
(`Conjuagation_APP.py` lines 89-142; `GUI_Conjuagation.py` lines 103-156
are byte-identical). -/

/-- Observable interactions with the external runtime during one
invocation, recorded so that claims about the runtime being (or not
being) invoked are statable. -/
inductive Event where
  | sessionCreated (path : String)
  | runCalled (outputNames : Option (List String)) (binding : List (String × NPArray))
deriving DecidableEq, Repr

/-- Result value of the APP/GUI `run_inference`: the Python function
returns `(True, (input_names, input_dict, output_names, outputs))` or
`(False, message)`. -/
inductive RunResultApp where
  | ok (input_names : List String) (input_dict : List (String × NPArray))
      (output_names : List String) (outputs : List OutTensor)
  | err (msg : String)
deriving DecidableEq, Repr

/-- Python `repr` of an integer shape list, as interpolated by the
f-string in the error message (for example `[2, 2, 2]`). -/
def shapeRepr (s : List ℕ) : String :=
  "[" ++ String.intercalate ", " (s.map toString) ++ "]"

/-- The shape-mismatch message of line 120 of `Conjuagation_APP.py`. -/
def unsupportedMsg (s : List ℕ) : String :=
  "Unexpected input shape: " ++ shapeRepr s ++ ". Model should accept 1D or 2D input."

/-- Embedding of the `for input_info in inputs:` loop of lines 106-122:
for every declared input build `[volume, impeller_speed]` as a rank-1 or
rank-2 float32 array according to `len(shape)`, inserting into the dict
in declaration order; any other rank returns early, carrying the
offending shape. -/
def buildInputDict (inputs : List TensorInfo) (volume impeller_speed : ℚ) :
    Except (List ℕ) (List (String × NPArray)) :=
  match inputs with
  | [] => .ok []
  | info :: rest =>
    let values := [cast32 volume, cast32 impeller_speed]
    if info.shape.length = 1 then
      (buildInputDict rest volume impeller_speed).map
        (fun d => (info.name, NPArray.arr1 values) :: d)
    else if info.shape.length = 2 then
      (buildInputDict rest volume impeller_speed).map
        (fun d => (info.name, NPArray.arr2 [values]) :: d)
    else
      .error info.shape

/-- Embedding of `try: os.unlink(path) except: pass` (lines 137-141):
a failing unlink is swallowed and the state left unchanged. -/
def tryUnlinkSwallow (fs : FS) (path : String) : FS :=
  match fs.unlink path with
  | .ok fs2 => fs2
  | .error _ => fs

/-- Embedding of the `except Exception as e:` handler of lines 135-142:
attempt cleanup when `model_path` was bound (swallowing any secondary
failure), then return `(False, str(e))`. -/
def exceptHandler (fs : FS) (model_path : Option String) (e : PyExn) :
    FS × RunResultApp :=
  match model_path with
  | some p => (tryUnlinkSwallow fs p, .err e.msg)
  | none => (fs, .err e.msg)

/-- Embedding of `run_inference(model_bytes, volume, impeller_speed)` of
`Conjuagation_APP.py` (lines 89-142, identical in `GUI_Conjuagation.py`):
write the bytes to a fresh temporary file, construct the session, build
the input dict over all declared inputs, run with the full output-name
list, unlink the temporary file, and return the tuple; exceptions are
routed through `exceptHandler`; the shape-mismatch branch returns
directly (line 120), without reaching the `os.unlink` of line 131. -/
def run_inference_app (rt : Runtime) (fs : FS) (model_bytes : Bytes)
    (volume impeller_speed : ℚ) : FS × List Event × RunResultApp :=
  let tmp := fs.mkTempFile model_bytes
  let fs1 := tmp.1
  let model_path := tmp.2
  match ortLoad rt fs1 model_path with
  | .error e =>
    let h := exceptHandler fs1 (some model_path) e
    (h.1, [], h.2)
  | .ok session =>
    let input_names := session.inputs.map TensorInfo.name
    match buildInputDict session.inputs volume impeller_speed with
    | .error shape =>
      (fs1, [Event.sessionCreated model_path], .err (unsupportedMsg shape))
    | .ok input_dict =>
      let output_names := session.outputs.map TensorInfo.name
      let ev := [Event.sessionCreated model_path,
                 Event.runCalled (some output_names) input_dict]
      match session.runFn (some output_names) input_dict with
      | .error e =>
        let h := exceptHandler fs1 (some model_path) e
        (h.1, ev, h.2)
      | .ok outputs =>
        match fs1.unlink model_path with
        | .error e =>
          let h := exceptHandler fs1 (some model_path) e
          (h.1, ev, h.2)
        | .ok fs2 =>
          (fs2, ev, .ok input_names input_dict output_names outputs)

/-! ## The V2 variant (`Conjuagation_APP_V2.py`) -/

/-- Result value of the V2 `run_inference`: line 77 returns
`(True, (input_names, input_dict, session.get_outputs(), outputs))`, so
the third component is the list of output `NodeArg`s, not names. -/
inductive RunResultV2 where
  | ok (input_names : List String) (input_dict : List (String × NPArray))
      (output_infos : List TensorInfo) (outputs : List OutTensor)
  | err (msg : String)
deriving DecidableEq, Repr

/-- Embedding of `run_inference(model_path, volume, impeller_speed)` of
`Conjuagation_APP_V2.py` (lines 70-79): construct the session, always
build the rank-2 float32 array `[[volume, impeller_speed]]` (no shape
inspection), bind it to `input_names[0]` (an empty input list raises
`IndexError`), and call `session.run(None, input_dict)`; every exception
becomes `(False, str(e))`.  No temporary file is touched here. -/
def run_inference_v2 (rt : Runtime) (fs : FS) (model_path : String)
    (volume impeller_speed : ℚ) : List Event × RunResultV2 :=
  match ortLoad rt fs model_path with
  | .error e => ([], .err e.msg)
  | .ok session =>
    let input_names := session.inputs.map TensorInfo.name
    match input_names.head? with
    | none => ([], .err "list index out of range")
    | some n0 =>
      let input_data := NPArray.arr2 [[cast32 volume, cast32 impeller_speed]]
      let input_dict := [(n0, input_data)]
      match session.runFn none input_dict with
      | .error e => ([Event.runCalled none input_dict], .err e.msg)
      | .ok outputs =>
        ([Event.runCalled none input_dict],
         .ok input_names input_dict session.outputs outputs)

/-! ## Caller-side display paths -/

/-- What the display code emits through streamlit; values are carried as
the exact rationals rather than their decimal renderings. -/
inductive DisplayEvent where
  | labeledValue (label : String) (value : ℚ)
  | warningMsg (msg : String)
  | rawValue (idx : ℕ) (value : ℚ)
  | rawValuesMsg (values : List ℚ)
  | errorMsg (msg : String)
deriving DecidableEq, Repr

/-- Embedding of Python list indexing `l[i]`: out of range raises
`IndexError`. -/
def pyGet (l : List ℚ) (i : ℕ) : Except PyExn ℚ :=
  match l.get? i with
  | some v => .ok v
  | none => .error (PyExn.mk "list index out of range")

/-- The warning of line 78 of `Conjuagation_APP.py` (the source wording
contains an apostrophe, transliterated here). -/
def appWarnMsg : String :=
  "Output array does not contain enough values for all the requested parameters."

/-- The warning of line 53 of `Conjuagation_APP_V2.py`. -/
def v2WarnMsg : String :=
  "Not enough outputs to label. Showing raw values:"

/-- The `OUTPUT_LABELS` constant of `Conjuagation_APP_V2.py` line 16. -/
def OUTPUT_LABELS : List String :=
  ["Shear Rate", "Power", "Tip Speed", "Reynolds Number", "Power Number"]

/-- Embedding of the success-branch display of `Conjuagation_APP.py`
lines 64-79: `output_array = outputs[0].flatten()`; with at least five
values one text block labels positions 0-4 (embedded as five
`labeledValue` events in source order), otherwise a warning plus the raw
values. -/
def app_display (outputs : List OutTensor) : Except PyExn (List DisplayEvent) :=
  match outputs.head? with
  | none => .error (PyExn.mk "list index out of range")
  | some o =>
    let output_array := o.data
    if 5 ≤ output_array.length then
      match pyGet output_array 0, pyGet output_array 1, pyGet output_array 2,
            pyGet output_array 3, pyGet output_array 4 with
      | .ok v0, .ok v1, .ok v2, .ok v3, .ok v4 =>
        .ok [DisplayEvent.labeledValue "Shear Rate" v0,
             DisplayEvent.labeledValue "Power" v1,
             DisplayEvent.labeledValue "Tip Speed" v2,
             DisplayEvent.labeledValue "Reynolds Number" v3,
             DisplayEvent.labeledValue "Power Number" v4]
      | _, _, _, _, _ => .error (PyExn.mk "list index out of range")
    else
      .ok [DisplayEvent.warningMsg appWarnMsg,
           DisplayEvent.rawValuesMsg output_array]

/-- Embedding of the success-branch display of `Conjuagation_APP_V2.py`
lines 45-55: with at least five values, `OUTPUT_LABELS[i]` against
`output_array[i]` for `i` in `range(5)`; otherwise a warning and
`Output {i+1}: val` lines (the CSV download button that follows is pure
UI and not modelled). -/
def v2_display (outputs : List OutTensor) : Except PyExn (List DisplayEvent) :=
  match outputs.head? with
  | none => .error (PyExn.mk "list index out of range")
  | some o =>
    let output_array := o.data
    if 5 ≤ output_array.length then
      match pyGet output_array 0, pyGet output_array 1, pyGet output_array 2,
            pyGet output_array 3, pyGet output_array 4 with
      | .ok v0, .ok v1, .ok v2, .ok v3, .ok v4 =>
        .ok [DisplayEvent.labeledValue "Shear Rate" v0,
             DisplayEvent.labeledValue "Power" v1,
             DisplayEvent.labeledValue "Tip Speed" v2,
             DisplayEvent.labeledValue "Reynolds Number" v3,
             DisplayEvent.labeledValue "Power Number" v4]
      | _, _, _, _, _ => .error (PyExn.mk "list index out of range")
    else
      .ok (DisplayEvent.warningMsg v2WarnMsg ::
           output_array.enum.map (fun p => DisplayEvent.rawValue (p.1 + 1) p.2))

/-! ## The V2 `main` click handler (download, infer, display, finally) -/

/-- An HTTP response as seen by `download_model_from_github`. -/
structure Response where
  status_code : ℕ
  content : Bytes
deriving DecidableEq, Repr

/-- Embedding of `download_model_from_github` (V2 lines 18-25): on
status 200 write the body to a fresh temporary file and return its path,
otherwise raise `Exception("Failed to download model from GitHub.")`. -/
def download_model_from_github (fs : FS) (resp : Response) :
    FS × Except PyExn String :=
  if resp.status_code = 200 then
    let tmp := fs.mkTempFile resp.content
    (tmp.1, .ok tmp.2)
  else
    (fs, .error (PyExn.mk "Failed to download model from GitHub."))

/-- Embedding of the `finally` block of V2 lines 66-68:
`if os.path.exists(model_path): os.remove(model_path)` (under the guard
the unlink cannot raise in this model, so the error branch is dead). -/
def removeIfExists (fs : FS) (path : String) : FS :=
  if fs.exists path then
    match fs.unlink path with
    | .ok fs2 => fs2
    | .error _ => fs
  else fs

/-- Embedding of the body of the inference button of V2 `main`
(lines 38-68).  The `try` has a `finally` but no `except`: when the
download raises, the `finally` evaluates `os.path.exists(model_path)`
with `model_path` unbound, so a `NameError` (replacing the in-flight
download exception, per Python 3 semantics for exceptions raised in a
`finally`) propagates out of the handler; the third component `.error`
means an unhandled exception escaped the invocation. -/
def v2_main_click (rt : Runtime) (fs : FS) (resp : Response)
    (volume impeller_speed : ℚ) :
    FS × List Event × Except PyExn (List DisplayEvent) :=
  match download_model_from_github fs resp with
  | (fs1, .error _e) =>
    (fs1, [], .error (PyExn.mk "NameError: name model_path is not defined"))
  | (fs1, .ok model_path) =>
    let r := run_inference_v2 rt fs1 model_path volume impeller_speed
    let disp : Except PyExn (List DisplayEvent) :=
      match r.2 with
      | .err msg => .ok [DisplayEvent.errorMsg ("Inference failed: " ++ msg)]
      | .ok _ _ _ outputs => v2_display outputs
    (removeIfExists fs1 model_path, r.1, disp)

/-! ## Projections used by the claim statements -/

/-- Names the APP-variant `run_inference` actually bound in its input
dictionary, in insertion order (for failure results, none). -/
def RunResultApp.boundNames : RunResultApp → Option (List String)
  | .ok _ d _ _ => some (d.map Prod.fst)
  | .err _ => none

/-- Names the V2 `run_inference` actually bound in its input
dictionary (for failure results, none). -/
def RunResultV2.boundNames : RunResultV2 → Option (List String)
  | .ok _ d _ _ => some (d.map Prod.fst)
  | .err _ => none

/-! ## Concrete fixtures for the concrete-input theorems -/

/-- A five-value output tensor, standing for the five scalar outputs a
conforming model returns. -/
def outT : OutTensor := OutTensor.mk [5] [1, 2, 3, 4, 5]

/-- A session whose sole declared input has rank 3 (shape `[2, 2, 2]`). -/
def sessionRank3 : SessionSpec :=
  SessionSpec.mk [TensorInfo.mk "x" [2, 2, 2]] [TensorInfo.mk "y" [5]]
    (fun _ _ => .ok [outT])

/-- A runtime whose loaded model is `sessionRank3`. -/
def rtRank3 : Runtime := Runtime.mk (fun _ => .ok sessionRank3)

/-- A session declaring two rank-1 inputs `a` and `b`. -/
def sessionTwoInputs : SessionSpec :=
  SessionSpec.mk [TensorInfo.mk "a" [2], TensorInfo.mk "b" [2]]
    [TensorInfo.mk "y" [5]] (fun _ _ => .ok [outT])

/-- A runtime whose loaded model is `sessionTwoInputs`. -/
def rtTwoInputs : Runtime := Runtime.mk (fun _ => .ok sessionTwoInputs)

/-- A session whose sole declared input has rank 1 (shape `[2]`). -/
def sessionRank1 : SessionSpec :=
  SessionSpec.mk [TensorInfo.mk "x" [2]] [TensorInfo.mk "y" [5]]
    (fun _ _ => .ok [outT])

/-- A runtime whose loaded model is `sessionRank1`. -/
def rtRank1 : Runtime := Runtime.mk (fun _ => .ok sessionRank1)

/-- A session whose sole declared input `in0` has rank 2 (shape `[1, 2]`). -/
def sessionRank2 : SessionSpec :=
  SessionSpec.mk [TensorInfo.mk "in0" [1, 2]] [TensorInfo.mk "y" [5]]
    (fun _ _ => .ok [outT])

/-- A runtime whose loaded model is `sessionRank2`. -/
def rtRank2 : Runtime := Runtime.mk (fun _ => .ok sessionRank2)

/-- A runtime whose session constructor always raises. -/
def rtBoom : Runtime := Runtime.mk (fun _ => .error (PyExn.mk "boom"))

/-- A session whose execution entry point always raises. -/
def sessionRunBoom : SessionSpec :=
  SessionSpec.mk [TensorInfo.mk "x" [2]] [TensorInfo.mk "y" [5]]
    (fun _ _ => .error (PyExn.mk "exec failed"))

/-- A runtime whose loaded model is `sessionRunBoom`. -/
def rtRunBoom : Runtime := Runtime.mk (fun _ => .ok sessionRunBoom)

/-- The empty filesystem with a fresh temp counter. -/
def fs0 : FS := FS.mk [] 0

/-- A filesystem already holding a model file, for the V2 variant whose
`run_inference` receives a path. -/
def fsM : FS := FS.mk [("model.onnx", [7])] 0

/-! ## Helper lemmas: binary32 cast evaluation -/

lemma pow2_eq_zpow (z : ℤ) : pow2 z = (2 : ℚ) ^ z := by
  unfold pow2
  rcases le_or_lt 0 z with h | h
  · rw [if_pos h, ← zpow_natCast, Int.toNat_of_nonneg h]
  · rw [if_neg (not_le.mpr h), ← zpow_natCast,
        Int.toNat_of_nonneg (by omega : (0:ℤ) ≤ -z), ← zpow_neg, neg_neg]

lemma rne_intCast (n : ℤ) : rne (n : ℚ) = n := by
  unfold rne
  norm_num

/-- Casting a positive rational that is exactly representable in binary32
(witnessed by an integer significand `n` at exponent `e`) is the
identity. -/
lemma cast32_pos_exact (q : ℚ) (e n : ℤ)
    (hq : 0 < q) (hlog : Int.log 2 q = e) (he : -126 ≤ e)
    (hn : q * pow2 (23 - e) = (n : ℚ)) (hsmall : q < pow2 128) :
    cast32 q = F32.finite q := by
  have habs : |q| = q := abs_of_pos hq
  have hmag : (n : ℚ) * pow2 (e - 23) = q := by
    rw [← hn, pow2_eq_zpow, pow2_eq_zpow, mul_assoc,
        ← zpow_add₀ (by norm_num : (2:ℚ) ≠ 0)]
    norm_num
  unfold cast32
  rw [if_neg (ne_of_gt hq)]
  simp only [habs, hlog, max_eq_left he, hn, rne_intCast, hmag,
             if_neg (not_lt.mpr (le_of_lt hq)), if_neg (not_le.mpr hsmall), one_mul]

lemma log2_five_half : Int.log 2 (5/2 : ℚ) = 1 := by
  rw [Int.log_of_one_le_right _ (by norm_num)]
  have h : ⌊(5/2 : ℚ)⌋₊ = 2 := by
    rw [Nat.floor_eq_iff (by norm_num)]
    norm_num
  rw [h]
  norm_num [Nat.log_eq_of_pow_le_of_lt_pow (by norm_num : 2^1 ≤ 2) (by norm_num : 2 < 2^2)]

/-- The double 2.5 is exactly representable in binary32, so the
`np.float32` cast leaves it unchanged. -/
lemma cast32_five_half : cast32 (5/2) = F32.finite (5/2) := by
  apply cast32_pos_exact (5/2) 1 10485760
  · norm_num
  · exact log2_five_half
  · norm_num
  · rw [show (23 - 1 : ℤ) = 22 by norm_num, pow2_eq_zpow]
    norm_num
  · rw [pow2_eq_zpow]
    norm_num

/-- The double 100.0 is exactly representable in binary32. -/
lemma cast32_hundred : cast32 100 = F32.finite 100 := by
  apply cast32_pos_exact 100 6 13107200
  · norm_num
  · rw [Int.log_ofNat]
    norm_num [Nat.log_eq_of_pow_le_of_lt_pow (by norm_num : 2^6 ≤ 100)
      (by norm_num : 100 < 2^7)]
  · norm_num
  · rw [show (23 - 6 : ℤ) = 17 by norm_num, pow2_eq_zpow]
    norm_num
  · rw [pow2_eq_zpow]
    norm_num

/-- The double 1.0 is exactly representable in binary32. -/
lemma cast32_one : cast32 1 = F32.finite 1 := by
  apply cast32_pos_exact 1 0 8388608
  · norm_num
  · exact Int.log_one_right 2
  · norm_num
  · rw [show (23 - 0 : ℤ) = 23 by norm_num, pow2_eq_zpow]
    norm_num
  · rw [pow2_eq_zpow]
    norm_num

/-! ## Helper lemmas: the filesystem model -/

lemma lookup_filter_append (l : List (String × Bytes)) (p : String) (b : Bytes) :
    List.lookup p (l.filter (fun x => x.1 ≠ p) ++ [(p, b)]) = some b := by
  induction l with
  | nil => simp [List.lookup]
  | cons hd tl ih =>
    by_cases h : hd.1 = p
    · simpa [List.filter, h] using ih
    · simp only [List.filter_cons]
      rw [if_pos (by simpa using h)]
      have hbeq : (p == hd.1) = false := beq_eq_false_iff_ne.mpr (Ne.symm h)
      simpa [List.lookup, hbeq] using ih

lemma FS.read_mkTempFile (fs : FS) (b : Bytes) :
    (fs.mkTempFile b).1.read (fs.mkTempFile b).2 = some b := by
  unfold FS.mkTempFile FS.write FS.read
  exact lookup_filter_append fs.files (tempName fs.tmpCounter) b

lemma FS.exists_mkTempFile (fs : FS) (b : Bytes) :
    (fs.mkTempFile b).1.exists (fs.mkTempFile b).2 = true := by
  rw [FS.exists, FS.read_mkTempFile]
  rfl

lemma FS.unlink_mkTempFile (fs : FS) (b : Bytes) :
    (fs.mkTempFile b).1.unlink (fs.mkTempFile b).2 =
      .ok (FS.mk ((fs.mkTempFile b).1.files.filter
            (fun p => p.1 ≠ (fs.mkTempFile b).2)) (fs.mkTempFile b).1.tmpCounter) := by
  unfold FS.unlink
  rw [if_pos (FS.exists_mkTempFile fs b)]

lemma ortLoad_mkTempFile (rt : Runtime) (fs : FS) (b : Bytes) :
    ortLoad rt (fs.mkTempFile b).1 (fs.mkTempFile b).2 = rt.load b := by
  unfold ortLoad
  rw [FS.read_mkTempFile]

/-! ## Helper lemmas: the input-building loop and the V2 invoker -/

lemma buildInputDict_names (inputs : List TensorInfo) (v i : ℚ)
    (d : List (String × NPArray)) (h : buildInputDict inputs v i = .ok d) :
    d.map Prod.fst = inputs.map TensorInfo.name := by
  induction inputs generalizing d with
  | nil =>
    simp only [buildInputDict, Except.ok.injEq] at h
    subst h
    rfl
  | cons info rest ih =>
    simp only [buildInputDict] at h
    by_cases h1 : info.shape.length = 1
    · rw [if_pos h1] at h
      cases hb : buildInputDict rest v i with
      | error s => rw [hb] at h; simp [Except.map] at h
      | ok d2 =>
        rw [hb] at h
        simp only [Except.map, Except.ok.injEq] at h
        subst h
        simp [ih d2 hb]
    · by_cases h2 : info.shape.length = 2
      · rw [if_neg h1, if_pos h2] at h
        cases hb : buildInputDict rest v i with
        | error s => rw [hb] at h; simp [Except.map] at h
        | ok d2 =>
          rw [hb] at h
          simp only [Except.map, Except.ok.injEq] at h
          subst h
          simp [ih d2 hb]
      · rw [if_neg h1, if_neg h2] at h
        exact absurd h (by simp)

lemma buildInputDict_single_rank1 (name : String) (shape : List ℕ) (v i : ℚ)
    (h : shape.length = 1) :
    buildInputDict [TensorInfo.mk name shape] v i =
      .ok [(name, NPArray.arr1 [cast32 v, cast32 i])] := by
  simp [buildInputDict, h, Except.map]

lemma buildInputDict_single_rank2 (name : String) (shape : List ℕ) (v i : ℚ)
    (h : shape.length = 2) :
    buildInputDict [TensorInfo.mk name shape] v i =
      .ok [(name, NPArray.arr2 [[cast32 v, cast32 i]])] := by
  simp [buildInputDict, h, Except.map]

lemma buildInputDict_single_other (name : String) (shape : List ℕ) (v i : ℚ)
    (h1 : shape.length ≠ 1) (h2 : shape.length ≠ 2) :
    buildInputDict [TensorInfo.mk name shape] v i = .error shape := by
  simp [buildInputDict, h1, h2]

lemma run_inference_v2_events (rt : Runtime) (fs : FS) (path : String)
    (v i : ℚ) (session : SessionSpec) (n0 : String)
    (hload : ortLoad rt fs path = .ok session)
    (hhead : (session.inputs.map TensorInfo.name).head? = some n0) :
    (run_inference_v2 rt fs path v i).1 =
      [Event.runCalled none [(n0, NPArray.arr2 [[cast32 v, cast32 i]])]] := by
  simp only [run_inference_v2, hload, hhead]
  cases session.runFn none [(n0, NPArray.arr2 [[cast32 v, cast32 i]])] <;> rfl

/-! ## Claims -/

/-- C1: the claim states that on every exit path of `run_inference` —
successful inference, unsupported-shape rejection, or a runtime
exception — the temporary model file created during the invocation no
longer exists when the call returns.  The code violates this on the
unsupported-shape path: `Conjuagation_APP.py` line 120 returns before the
`os.unlink` of line 131, leaking the file.  Evaluated on a model whose
sole declared input has shape `[2, 2, 2]`, the embedded `run_inference`
returns the unsupported-shape failure while the temporary file written
for this invocation still exists on the filesystem. -/
theorem C1_temp_file_leaks_on_shape_mismatch :
    (run_inference_app rtRank3 fs0 [7] 1 1).1.exists (tempName 0) = true ∧
    (run_inference_app rtRank3 fs0 [7] 1 1).2.2 = .err (unsupportedMsg [2, 2, 2]) :=
  ⟨rfl, rfl⟩

/-- C2 counterexample: the claim states that for every loaded session
only the first declared input is consumed and additional declared inputs
receive no binding.  On a session declaring two rank-1 inputs `a` and
`b`, the APP/GUI `run_inference` loop populates both: the binding names
are `["a", "b"]`, not `["a"]`. -/
theorem C2_counterexample :
    (run_inference_app rtTwoInputs fs0 [7] 1 2).2.2.boundNames = some ["a", "b"] ∧
    ((["a", "b"] : List String) == ["a"]) = false :=
  ⟨rfl, rfl⟩

/-- C2 amended: the V2 variant binds the two scalar values only to the
first declared input; the APP/GUI variant instead populates every
declared input, binding the same two-value array to each, so additional
declared inputs are populated there rather than left unbound. -/
theorem C2_first_input_binding :
    (∀ (inputs : List TensorInfo) (v i : ℚ) (d : List (String × NPArray)),
        buildInputDict inputs v i = .ok d →
        d.map Prod.fst = inputs.map TensorInfo.name) ∧
    (∀ (rt : Runtime) (fs : FS) (path : String) (v i : ℚ)
        (session : SessionSpec) (n0 : String),
        ortLoad rt fs path = .ok session →
        (session.inputs.map TensorInfo.name).head? = some n0 →
        ∀ names dict, Event.runCalled names dict ∈ (run_inference_v2 rt fs path v i).1 →
          dict.map Prod.fst = [n0]) := by
  constructor
  · exact buildInputDict_names
  · intro rt fs path v i session n0 hload hhead names dict hmem
    rw [run_inference_v2_events rt fs path v i session n0 hload hhead] at hmem
    simp only [List.mem_singleton] at hmem
    cases hmem
    rfl

/-- C2 witness: on a concrete two-input session the APP loop binds both
declared names, and on a concrete one-input session the V2 invoker binds
exactly the first name. -/
theorem C2_first_input_binding_witness :
    ([("a", NPArray.arr1 [cast32 1, cast32 2]),
      ("b", NPArray.arr1 [cast32 1, cast32 2])].map Prod.fst
        = [TensorInfo.mk "a" [2], TensorInfo.mk "b" [2]].map TensorInfo.name) ∧
    ([("x", NPArray.arr2 [[cast32 1, cast32 1]])].map Prod.fst = ["x"]) :=
  ⟨C2_first_input_binding.1 [TensorInfo.mk "a" [2], TensorInfo.mk "b" [2]] 1 2 _ rfl,
   C2_first_input_binding.2 rtRank1 fsM "model.onnx" 1 1 sessionRank1 "x" rfl rfl
     none _ (List.Mem.head _)⟩

/-- C3 counterexample: the claim states that for every model whose sole
declared input has rank 1, `infer` constructs the one-dimensional array
`[volume, impellerSpeed]`.  The V2 `run_inference` never inspects the
declared shape: on a session whose sole input `x` has shape `[2]` it
binds the two-dimensional array `[[volume, impellerSpeed]]`, which is not
a one-dimensional array. -/
theorem C3_counterexample :
    (run_inference_v2 rtRank1 fsM "model.onnx" 1 1).1 =
      [Event.runCalled none [("x", NPArray.arr2 [[cast32 1, cast32 1]])]] ∧
    (NPArray.arr2 [[cast32 1, cast32 1]]).isArr1 = false :=
  ⟨rfl, rfl⟩

/-- C3 amended: in the APP/GUI variant a sole rank-1 declared input
receives the one-dimensional float32 array `[volume, impellerSpeed]` in
that order; the V2 variant always constructs the two-dimensional array
`[[volume, impellerSpeed]]`, regardless of the declared rank. -/
theorem C3_rank1_builds_1d_array :
    (∀ (name : String) (shape : List ℕ) (v i : ℚ), shape.length = 1 →
        buildInputDict [TensorInfo.mk name shape] v i =
          .ok [(name, NPArray.arr1 [cast32 v, cast32 i])]) ∧
    (∀ (rt : Runtime) (fs : FS) (path : String) (v i : ℚ)
        (session : SessionSpec) (n0 : String),
        ortLoad rt fs path = .ok session →
        (session.inputs.map TensorInfo.name).head? = some n0 →
        ∀ names dict, Event.runCalled names dict ∈ (run_inference_v2 rt fs path v i).1 →
          dict = [(n0, NPArray.arr2 [[cast32 v, cast32 i]])]) := by
  constructor
  · exact buildInputDict_single_rank1
  · intro rt fs path v i session n0 hload hhead names dict hmem
    rw [run_inference_v2_events rt fs path v i session n0 hload hhead] at hmem
    simp only [List.mem_singleton] at hmem
    cases hmem
    rfl

/-- C3 witness: concrete instances of both halves of the amended
statement, at a rank-1 single-input session and input values 1 and 1. -/
theorem C3_rank1_builds_1d_array_witness :
    buildInputDict [TensorInfo.mk "x" [2]] 1 1 =
      .ok [("x", NPArray.arr1 [cast32 1, cast32 1])] ∧
    [("x", NPArray.arr2 [[cast32 1, cast32 1]])] =
      [("x", NPArray.arr2 [[cast32 1, cast32 1]])] :=
  ⟨C3_rank1_builds_1d_array.1 "x" [2] 1 1 rfl,
   C3_rank1_builds_1d_array.2 rtRank1 fsM "model.onnx" 1 1 sessionRank1 "x" rfl rfl
     none _ (List.Mem.head _)⟩

/-- C4: for a sole declared input of rank 2 both variants construct the
two-dimensional float32 array `[[volume, impellerSpeed]]`; concretely,
with volume 5/2 (2.5) and impeller speed 100, the binding passed to the
runtime maps the input name to `[[2.5, 100.0]]` whose entries are the
exactly representable binary32 values 2.5 and 100.0. -/
theorem C4_rank2_float32_binding :
    (∀ (name : String) (shape : List ℕ) (v i : ℚ), shape.length = 2 →
        buildInputDict [TensorInfo.mk name shape] v i =
          .ok [(name, NPArray.arr2 [[cast32 v, cast32 i]])]) ∧
    ((run_inference_app rtRank2 fs0 [7] (5/2) 100).2.1 =
      [Event.sessionCreated (tempName 0),
       Event.runCalled (some ["y"])
         [("in0", NPArray.arr2 [[F32.finite (5/2), F32.finite 100]])]] ∧
     (run_inference_app rtRank2 fs0 [7] (5/2) 100).2.2 =
      .ok ["in0"] [("in0", NPArray.arr2 [[F32.finite (5/2), F32.finite 100]])]
        ["y"] [outT]) := by
  refine ⟨buildInputDict_single_rank2, ?_, ?_⟩
  · have base : (run_inference_app rtRank2 fs0 [7] (5/2) 100).2.1 =
        [Event.sessionCreated (tempName 0),
         Event.runCalled (some ["y"])
           [("in0", NPArray.arr2 [[cast32 (5/2), cast32 100]])]] := rfl
    rw [base, cast32_five_half, cast32_hundred]
  · have base : (run_inference_app rtRank2 fs0 [7] (5/2) 100).2.2 =
        .ok ["in0"] [("in0", NPArray.arr2 [[cast32 (5/2), cast32 100]])]
          ["y"] [outT] := rfl
    rw [base, cast32_five_half, cast32_hundred]

/-- C4 witness: the rank-2 half instantiated at a concrete name, the
shape `[1, 2]` and the input values 1 and 2. -/
theorem C4_rank2_float32_binding_witness :
    buildInputDict [TensorInfo.mk "in0" [1, 2]] 1 2 =
      .ok [("in0", NPArray.arr2 [[cast32 1, cast32 2]])] :=
  C4_rank2_float32_binding.1 "in0" [1, 2] 1 2 rfl

/-- C5 counterexample: the claim states that for a sole declared input of
rank 3 or more, `infer` fails with the unsupported-shape error and the
runtime entry point is never invoked.  The V2 `run_inference` performs no
rank check: on a session whose sole input `x` has shape `[2, 2, 2]` it
invokes `session.run` (the `runCalled` event) and returns a success
value, not a shape failure. -/
theorem C5_counterexample :
    (run_inference_v2 rtRank3 fsM "model.onnx" 1 1).1 =
      [Event.runCalled none [("x", NPArray.arr2 [[cast32 1, cast32 1]])]] ∧
    (run_inference_v2 rtRank3 fsM "model.onnx" 1 1).2 =
      .ok ["x"] [("x", NPArray.arr2 [[cast32 1, cast32 1]])]
        [TensorInfo.mk "y" [5]] [outT] :=
  ⟨rfl, rfl⟩

/-- C5 amended: in the APP/GUI variant, a sole declared input whose rank
is neither 1 nor 2 makes `run_inference` return the unsupported-shape
failure carrying the offending shape, and the only recorded runtime
interaction is the session construction — the execution entry point is
never invoked.  The V2 variant performs no rank check and always invokes
the runtime once the session has a first input. -/
theorem C5_unsupported_rank_fail_fast :
    (∀ (rt : Runtime) (fs : FS) (bytes : Bytes) (v i : ℚ)
        (session : SessionSpec) (name : String) (shape : List ℕ),
        rt.load bytes = .ok session →
        session.inputs = [TensorInfo.mk name shape] →
        shape.length ≠ 1 → shape.length ≠ 2 →
        (run_inference_app rt fs bytes v i).2.2 = .err (unsupportedMsg shape) ∧
        (run_inference_app rt fs bytes v i).2.1 =
          [Event.sessionCreated (fs.mkTempFile bytes).2]) ∧
    (∀ (rt : Runtime) (fs : FS) (path : String) (v i : ℚ)
        (session : SessionSpec) (n0 : String),
        ortLoad rt fs path = .ok session →
        (session.inputs.map TensorInfo.name).head? = some n0 →
        Event.runCalled none [(n0, NPArray.arr2 [[cast32 v, cast32 i]])] ∈
          (run_inference_v2 rt fs path v i).1) := by
  constructor
  · intro rt fs bytes v i session name shape hload hinputs h1 h2
    have hb : buildInputDict session.inputs v i = .error shape := by
      rw [hinputs]
      exact buildInputDict_single_other name shape v i h1 h2
    constructor
    · simp only [run_inference_app, ortLoad_mkTempFile, hload, hb]
    · simp only [run_inference_app, ortLoad_mkTempFile, hload, hb]
  · intro rt fs path v i session n0 hload hhead
    rw [run_inference_v2_events rt fs path v i session n0 hload hhead]
    exact List.Mem.head _

/-- C5 witness: the APP half at a concrete rank-3 single-input model, and
the V2 half at the same model placed on disk. -/
theorem C5_unsupported_rank_fail_fast_witness :
    ((run_inference_app rtRank3 fs0 [7] 1 1).2.2 = .err (unsupportedMsg [2, 2, 2]) ∧
     (run_inference_app rtRank3 fs0 [7] 1 1).2.1 =
       [Event.sessionCreated (fs0.mkTempFile [7]).2]) ∧
    Event.runCalled none [("x", NPArray.arr2 [[cast32 1, cast32 1]])] ∈
      (run_inference_v2 rtRank3 fsM "model.onnx" 1 1).1 :=
  ⟨C5_unsupported_rank_fail_fast.1 rtRank3 fs0 [7] 1 1 sessionRank3 "x" [2, 2, 2]
     rfl rfl (by decide) (by decide),
   C5_unsupported_rank_fail_fast.2 rtRank3 fsM "model.onnx" 1 1 sessionRank3 "x"
     rfl rfl⟩

/-- C6: the claim states that every exception raised during session
construction, model download, or inference execution is caught at the
invocation boundary and returned as a tagged failure.  In the V2 `main`
the `try` block has a `finally` but no `except`: when the model download
fails (HTTP status other than 200), the download exception escapes and
the `finally` block itself raises `NameError` on the unbound
`model_path`.  The embedded click handler therefore ends with a
propagating exception, not a tagged failure value. -/
theorem C6_exception_escapes_v2_main :
    (v2_main_click rtRank2 fs0 (Response.mk 404 []) 1 1).2.2 =
      .error (PyExn.mk "NameError: name model_path is not defined") :=
  rfl

/-- C7 counterexample: the claim states that `infer` calls the runtime
execution entry point with the full list of the declared output names.
The V2 `run_inference` passes `None` instead (line 76): on a session
declaring the output `y`, the recorded call carries no output-name list
at all. -/
theorem C7_counterexample :
    (run_inference_v2 rtRank2 fsM "model.onnx" 1 1).1 =
      [Event.runCalled none [("in0", NPArray.arr2 [[cast32 1, cast32 1]])]] ∧
    sessionRank2.outputs.map TensorInfo.name = ["y"] ∧
    (Option.isSome (none : Option (List String))) = false :=
  ⟨rfl, rfl, rfl⟩

/-- C7 amended: the APP/GUI variant calls `session.run` with the full
declared output-name list and returns the output arrays positionally,
unmodified; the V2 variant calls `session.run` with `None` (which the
runtime resolves to all declared outputs in declaration order) and
likewise returns the outputs unmodified. -/
theorem C7_outputs_positional_untruncated :
    (∀ (rt : Runtime) (fs : FS) (bytes : Bytes) (v i : ℚ)
        (session : SessionSpec) (dict : List (String × NPArray))
        (outs : List OutTensor),
        rt.load bytes = .ok session →
        buildInputDict session.inputs v i = .ok dict →
        session.runFn (some (session.outputs.map TensorInfo.name)) dict = .ok outs →
        (run_inference_app rt fs bytes v i).2.2 =
          .ok (session.inputs.map TensorInfo.name) dict
            (session.outputs.map TensorInfo.name) outs ∧
        Event.runCalled (some (session.outputs.map TensorInfo.name)) dict ∈
          (run_inference_app rt fs bytes v i).2.1) ∧
    (∀ (rt : Runtime) (fs : FS) (path : String) (v i : ℚ)
        (session : SessionSpec) (n0 : String) (outs : List OutTensor),
        ortLoad rt fs path = .ok session →
        (session.inputs.map TensorInfo.name).head? = some n0 →
        session.runFn none [(n0, NPArray.arr2 [[cast32 v, cast32 i]])] = .ok outs →
        (run_inference_v2 rt fs path v i).2 =
          .ok (session.inputs.map TensorInfo.name)
            [(n0, NPArray.arr2 [[cast32 v, cast32 i]])] session.outputs outs ∧
        Event.runCalled none [(n0, NPArray.arr2 [[cast32 v, cast32 i]])] ∈
          (run_inference_v2 rt fs path v i).1) := by
  constructor
  · intro rt fs bytes v i session dict outs hload hdict hrun
    constructor
    · simp only [run_inference_app, ortLoad_mkTempFile, hload, hdict, hrun,
        FS.unlink_mkTempFile]
    · simp only [run_inference_app, ortLoad_mkTempFile, hload, hdict, hrun,
        FS.unlink_mkTempFile]
      simp
  · intro rt fs path v i session n0 outs hload hhead hrun
    constructor
    · simp only [run_inference_v2, hload, hhead, hrun]
    · rw [run_inference_v2_events rt fs path v i session n0 hload hhead]
      exact List.Mem.head _

/-- C7 witness: both halves at a concrete rank-2 single-input model with
input values 1 and 1, where the runtime returns the five-value tensor. -/
theorem C7_outputs_positional_untruncated_witness :
    ((run_inference_app rtRank2 fs0 [7] 1 1).2.2 =
       .ok ["in0"] [("in0", NPArray.arr2 [[cast32 1, cast32 1]])] ["y"] [outT] ∧
     Event.runCalled (some ["y"]) [("in0", NPArray.arr2 [[cast32 1, cast32 1]])] ∈
       (run_inference_app rtRank2 fs0 [7] 1 1).2.1) ∧
    ((run_inference_v2 rtRank2 fsM "model.onnx" 1 1).2 =
       .ok ["in0"] [("in0", NPArray.arr2 [[cast32 1, cast32 1]])]
         [TensorInfo.mk "y" [5]] [outT] ∧
     Event.runCalled none [("in0", NPArray.arr2 [[cast32 1, cast32 1]])] ∈
       (run_inference_v2 rtRank2 fsM "model.onnx" 1 1).1) :=
  ⟨C7_outputs_positional_untruncated.1 rtRank2 fs0 [7] 1 1 sessionRank2
     [("in0", NPArray.arr2 [[cast32 1, cast32 1]])] [outT] rfl rfl rfl,
   C7_outputs_positional_untruncated.2 rtRank2 fsM "model.onnx" 1 1 sessionRank2
     "in0" [outT] rfl rfl rfl⟩

/-! ## Helper lemmas: the display paths -/

lemma app_display_short (outputs : List OutTensor) (o : OutTensor)
    (h : outputs.head? = some o) (h5 : o.data.length < 5) :
    app_display outputs = .ok [DisplayEvent.warningMsg appWarnMsg,
      DisplayEvent.rawValuesMsg o.data] := by
  unfold app_display
  rw [h]
  simp only
  rw [if_neg (by omega : ¬ 5 ≤ o.data.length)]

lemma v2_display_short (outputs : List OutTensor) (o : OutTensor)
    (h : outputs.head? = some o) (h5 : o.data.length < 5) :
    v2_display outputs = .ok (DisplayEvent.warningMsg v2WarnMsg ::
      o.data.enum.map (fun p => DisplayEvent.rawValue (p.1 + 1) p.2)) := by
  unfold v2_display
  rw [h]
  simp only
  rw [if_neg (by omega : ¬ 5 ≤ o.data.length)]

lemma app_display_five (outputs : List OutTensor) (o : OutTensor)
    (v0 v1 v2 v3 v4 : ℚ) (rest : List ℚ)
    (h : outputs.head? = some o) (hd : o.data = v0 :: v1 :: v2 :: v3 :: v4 :: rest) :
    app_display outputs = .ok
      [DisplayEvent.labeledValue "Shear Rate" v0,
       DisplayEvent.labeledValue "Power" v1,
       DisplayEvent.labeledValue "Tip Speed" v2,
       DisplayEvent.labeledValue "Reynolds Number" v3,
       DisplayEvent.labeledValue "Power Number" v4] := by
  unfold app_display
  rw [h]
  simp only
  rw [hd]
  rw [if_pos (by simp : 5 ≤ (v0 :: v1 :: v2 :: v3 :: v4 :: rest).length)]
  rfl

lemma v2_display_five (outputs : List OutTensor) (o : OutTensor)
    (v0 v1 v2 v3 v4 : ℚ) (rest : List ℚ)
    (h : outputs.head? = some o) (hd : o.data = v0 :: v1 :: v2 :: v3 :: v4 :: rest) :
    v2_display outputs = .ok
      [DisplayEvent.labeledValue "Shear Rate" v0,
       DisplayEvent.labeledValue "Power" v1,
       DisplayEvent.labeledValue "Tip Speed" v2,
       DisplayEvent.labeledValue "Reynolds Number" v3,
       DisplayEvent.labeledValue "Power Number" v4] := by
  unfold v2_display
  rw [h]
  simp only
  rw [hd]
  rw [if_pos (by simp : 5 ≤ (v0 :: v1 :: v2 :: v3 :: v4 :: rest).length)]
  rfl

lemma exists_five_cons (l : List ℚ) (h : 5 ≤ l.length) :
    ∃ v0 v1 v2 v3 v4 rest, l = v0 :: v1 :: v2 :: v3 :: v4 :: rest := by
  rcases l with _ | ⟨v0, _ | ⟨v1, _ | ⟨v2, _ | ⟨v3, _ | ⟨v4, rest⟩⟩⟩⟩⟩ <;>
    simp only [List.length_nil, List.length_cons] at h <;>
    first
      | omega
      | exact ⟨v0, v1, v2, v3, v4, rest, rfl⟩

/-- C8: whenever a successful inference has a first output, the
caller-side display paths of both variants never raise an index error
(every indexing they perform is in range): with fewer than five flattened
values they emit the warning and the raw values, and with five or more
they label positions 0 through 4 as Shear Rate, Power, Tip Speed,
Reynolds Number and Power Number, in that order. -/
theorem C8_display_degrades_gracefully :
    (∀ (outputs : List OutTensor) (o : OutTensor), outputs.head? = some o →
        (∃ evs, app_display outputs = .ok evs) ∧
        (∃ evs, v2_display outputs = .ok evs)) ∧
    (∀ (outputs : List OutTensor) (o : OutTensor), outputs.head? = some o →
        o.data.length < 5 →
        app_display outputs = .ok [DisplayEvent.warningMsg appWarnMsg,
          DisplayEvent.rawValuesMsg o.data] ∧
        v2_display outputs = .ok (DisplayEvent.warningMsg v2WarnMsg ::
          o.data.enum.map (fun p => DisplayEvent.rawValue (p.1 + 1) p.2))) ∧
    (∀ (outputs : List OutTensor) (o : OutTensor) (v0 v1 v2 v3 v4 : ℚ)
        (rest : List ℚ), outputs.head? = some o →
        o.data = v0 :: v1 :: v2 :: v3 :: v4 :: rest →
        app_display outputs = .ok
          [DisplayEvent.labeledValue "Shear Rate" v0,
           DisplayEvent.labeledValue "Power" v1,
           DisplayEvent.labeledValue "Tip Speed" v2,
           DisplayEvent.labeledValue "Reynolds Number" v3,
           DisplayEvent.labeledValue "Power Number" v4] ∧
        v2_display outputs = .ok
          [DisplayEvent.labeledValue "Shear Rate" v0,
           DisplayEvent.labeledValue "Power" v1,
           DisplayEvent.labeledValue "Tip Speed" v2,
           DisplayEvent.labeledValue "Reynolds Number" v3,
           DisplayEvent.labeledValue "Power Number" v4]) := by
  refine ⟨?_, ?_, ?_⟩
  · intro outputs o h
    by_cases h5 : o.data.length < 5
    · exact ⟨⟨_, app_display_short outputs o h h5⟩,
             ⟨_, v2_display_short outputs o h h5⟩⟩
    · obtain ⟨v0, v1, v2, v3, v4, rest, hd⟩ :=
        exists_five_cons o.data (by omega)
      exact ⟨⟨_, app_display_five outputs o v0 v1 v2 v3 v4 rest h hd⟩,
             ⟨_, v2_display_five outputs o v0 v1 v2 v3 v4 rest h hd⟩⟩
  · intro outputs o h h5
    exact ⟨app_display_short outputs o h h5, v2_display_short outputs o h h5⟩
  · intro outputs o v0 v1 v2 v3 v4 rest h hd
    exact ⟨app_display_five outputs o v0 v1 v2 v3 v4 rest h hd,
           v2_display_five outputs o v0 v1 v2 v3 v4 rest h hd⟩

/-- C8 witness: a three-value output produces the warning plus raw
values, and a five-value output produces the five labels in order. -/
theorem C8_display_degrades_gracefully_witness :
    (app_display [OutTensor.mk [3] [1, 2, 3]] =
      .ok [DisplayEvent.warningMsg appWarnMsg,
           DisplayEvent.rawValuesMsg [1, 2, 3]] ∧
     v2_display [OutTensor.mk [3] [1, 2, 3]] =
      .ok (DisplayEvent.warningMsg v2WarnMsg ::
        ([1, 2, 3] : List ℚ).enum.map
          (fun p => DisplayEvent.rawValue (p.1 + 1) p.2))) ∧
    (app_display [outT] = .ok
      [DisplayEvent.labeledValue "Shear Rate" 1,
       DisplayEvent.labeledValue "Power" 2,
       DisplayEvent.labeledValue "Tip Speed" 3,
       DisplayEvent.labeledValue "Reynolds Number" 4,
       DisplayEvent.labeledValue "Power Number" 5] ∧
     v2_display [outT] = .ok
      [DisplayEvent.labeledValue "Shear Rate" 1,
       DisplayEvent.labeledValue "Power" 2,
       DisplayEvent.labeledValue "Tip Speed" 3,
       DisplayEvent.labeledValue "Reynolds Number" 4,
       DisplayEvent.labeledValue "Power Number" 5]) :=
  ⟨C8_display_degrades_gracefully.2.1 [OutTensor.mk [3] [1, 2, 3]]
     (OutTensor.mk [3] [1, 2, 3]) rfl (by simp),
   C8_display_degrades_gracefully.2.2 [outT] outT 1 2 3 4 5 [] rfl rfl⟩

/-! ## Helper lemma: the second invocation sees the same result -/

lemma run_inference_app_result_indep (rt : Runtime) (bytes : Bytes) (v i : ℚ)
    (fs fs2 : FS) :
    (run_inference_app rt fs bytes v i).2.2 =
      (run_inference_app rt fs2 bytes v i).2.2 := by
  cases hload : rt.load bytes with
  | error e =>
    simp only [run_inference_app, ortLoad_mkTempFile, hload, exceptHandler]
  | ok session =>
    cases hb : buildInputDict session.inputs v i with
    | error shape =>
      simp only [run_inference_app, ortLoad_mkTempFile, hload, hb]
    | ok dict =>
      cases hrun : session.runFn (some (session.outputs.map TensorInfo.name)) dict with
      | error e =>
        simp only [run_inference_app, ortLoad_mkTempFile, hload, hb, hrun,
          exceptHandler]
      | ok outs =>
        simp only [run_inference_app, ortLoad_mkTempFile, hload, hb, hrun,
          FS.unlink_mkTempFile]

/-- C9: for a fixed runtime, fixed model bytes and fixed input values,
running the APP/GUI `run_inference` a second time, from the filesystem
state the first invocation left behind, returns exactly the same result
value (including the output arrays): the invocation wrapper is a pure
function of the runtime oracle, the model bytes and the two inputs, so it
adds no nondeterminism beyond the runtime itself. -/
theorem C9_rerun_deterministic :
    ∀ (rt : Runtime) (fs : FS) (bytes : Bytes) (v i : ℚ),
      (run_inference_app rt ((run_inference_app rt fs bytes v i).1) bytes v i).2.2 =
        (run_inference_app rt fs bytes v i).2.2 :=
  fun rt fs bytes v i => run_inference_app_result_indep rt bytes v i _ fs

/-- C10: the exception handler of the APP/GUI `run_inference` returns
exactly the string of the original exception, whatever the filesystem
state — in particular when the cleanup it attempts fails (the temporary
file is already gone), that secondary failure is swallowed and the
reported message is unchanged; consequently both the session-construction
failure path and the execution failure path surface exactly the original
message. -/
theorem C10_error_string_preserved :
    (∀ (fs : FS) (p : String) (e : PyExn),
        (exceptHandler fs (some p) e).2 = .err e.msg) ∧
    (∀ (rt : Runtime) (fs : FS) (bytes : Bytes) (v i : ℚ) (e : PyExn),
        rt.load bytes = .error e →
        (run_inference_app rt fs bytes v i).2.2 = .err e.msg) ∧
    (∀ (rt : Runtime) (fs : FS) (bytes : Bytes) (v i : ℚ)
        (session : SessionSpec) (dict : List (String × NPArray)) (e : PyExn),
        rt.load bytes = .ok session →
        buildInputDict session.inputs v i = .ok dict →
        session.runFn (some (session.outputs.map TensorInfo.name)) dict = .error e →
        (run_inference_app rt fs bytes v i).2.2 = .err e.msg) := by
  refine ⟨fun fs p e => rfl, ?_, ?_⟩
  · intro rt fs bytes v i e hload
    simp only [run_inference_app, ortLoad_mkTempFile, hload, exceptHandler]
  · intro rt fs bytes v i session dict e hload hdict hrun
    simp only [run_inference_app, ortLoad_mkTempFile, hload, hdict, hrun,
      exceptHandler]

/-- C10 witness: the handler on a filesystem where the temporary file is
absent (so its own cleanup fails and is swallowed) still reports exactly
the original message, as do the concrete failing-load and
failing-execution runtimes. -/
theorem C10_error_string_preserved_witness :
    (exceptHandler fs0 (some "ghost.onnx") (PyExn.mk "boom")).2 = .err "boom" ∧
    (run_inference_app rtBoom fs0 [7] 1 1).2.2 = .err "boom" ∧
    (run_inference_app rtRunBoom fs0 [7] 1 1).2.2 = .err "exec failed" :=
  ⟨C10_error_string_preserved.1 fs0 "ghost.onnx" (PyExn.mk "boom"),
   C10_error_string_preserved.2.1 rtBoom fs0 [7] 1 1 (PyExn.mk "boom") rfl,
   C10_error_string_preserved.2.2 rtRunBoom fs0 [7] 1 1 sessionRunBoom
     [("x", NPArray.arr1 [cast32 1, cast32 1])] (PyExn.mk "exec failed")
     rfl rfl rfl⟩
